import Mathlib

/-!
Verification of the Mie scattering core of the WPthermal repository
(file src/wpspecdev/mie.py, class MieDriver).

The scipy special-function backends (spherical_jn, spherical_yn, jv, yv)
are external to the repository, so they appear here as function
parameters; every statement about the Mie code holds for arbitrary
backends.  Floating-point numbers are modelled by the real numbers and
numpy complex arrays by lists of complex numbers; numpy elementwise
operations over an order array become List.map over the order list.
Division is the totalized field division of Mathlib, so a quotient with
zero denominator evaluates to zero where numpy would produce inf or nan;
the point preserved by the model is that no error path exists.
-/

noncomputable section

namespace WPthermal

/-- Values an entry of the args dictionary may take in the calls the
code performs: a real number (the radius option) or a
(start, stop, count) triple (the wavelength grid option).  The Python
dict is dynamically typed; the model restricts it to the well-typed
values the code consumes, and `int(lamlist[2])` is modelled by taking
the count as a natural number. -/
inductive ArgVal where
  | num : ℝ → ArgVal
  | triple : ℝ → ℝ → ℕ → ArgVal

/-- The args dictionary, modelled as an association list keyed by the
option name. -/
abbrev Args := List (String × ArgVal)

/-- Model of numpy.linspace(a, b, n): n evenly spaced points from a to
b inclusive, step (b - a)/(n - 1).  For n = 1 numpy returns [a]; in the
model the totalized division makes the step 0, matching that case. -/
def linspace (a b : ℝ) (n : ℕ) : List ℝ :=
  (List.range n).map (fun i => a + i * ((b - a) / ((n : ℝ) - 1)))

/-- The attributes that parse_input stores on the MieDriver object
(source lines 83-101). -/
structure ParsedState where
  radius : ℝ
  wavelength_array : List ℝ
  number_of_wavelengths : ℕ
  sphere_refractive_index_array : List ℂ
  medium_refractive_index : ℂ
  relative_refractive_index_array : List ℂ
  relative_permeability : ℂ
  size_factor_array : List ℝ

/-- Embedding of MieDriver.parse_input (source lines 83-101).  The
radius option is keyed by the string radius with default 100e-9; the
wavelength grid option is keyed by the string wavelength_list with
default linspace(400e-9, 800e-9, 10).  The refractive-index data is
hard-coded: sphere index 1.5+0j at every wavelength, medium index
1.0+0j, relative permeability 1.0+0j.  The size factor array is
pi * 2 * radius / wavelength, elementwise. -/
def parse_input (args : Args) : ParsedState :=
  let radius : ℝ :=
    match List.lookup "radius" args with
    | some (ArgVal.num r) => r
    | _ => 100e-9
  let wl : List ℝ × ℕ :=
    match List.lookup "wavelength_list" args with
    | some (ArgVal.triple a b n) => (linspace a b n, n)
    | _ => (linspace 400e-9 800e-9 10, 10)
  let sphere : List ℂ := List.replicate wl.2 (1.5 : ℂ)
  let medium : ℂ := 1
  { radius := radius
    wavelength_array := wl.1
    number_of_wavelengths := wl.2
    sphere_refractive_index_array := sphere
    medium_refractive_index := medium
    relative_refractive_index_array := sphere.map (fun s => s / medium)
    relative_permeability := 1
    size_factor_array := wl.1.map (fun lam => Real.pi * 2 * radius / lam) }

/-- Embedding of MieDriver.compute_spectrum (source lines 104-119).
The body of the method is the single statement pass: it computes
nothing and returns None, so the model returns none for every parsed
state (the Option value would carry the six efficiency and
cross-section sequences if they were ever produced). -/
def compute_spectrum (_s : ParsedState) :
    Option (List ℝ × List ℝ × List ℝ × List ℝ × List ℝ × List ℝ) :=
  none

/-- Embedding of MieDriver._compute_s_jn (source lines 121-144): the
spherical Bessel function obtained from the half-integer-order
cylindrical Bessel function, sqrt(pi / (2 z)) * jv(n + 0.5, z).  The
scipy backend jv is the parameter jvB. -/
def compute_s_jn (jvB : ℝ → ℝ → ℝ) (n : ℕ) (z : ℝ) : ℝ :=
  Real.sqrt (Real.pi / (2 * z)) * jvB ((n : ℝ) + 0.5) z

/-- Embedding of MieDriver._compute_s_yn (source lines 147-170),
analogous to compute_s_jn with the second-kind backend yv. -/
def compute_s_yn (yvB : ℝ → ℝ → ℝ) (n : ℕ) (z : ℝ) : ℝ :=
  Real.sqrt (Real.pi / (2 * z)) * yvB ((n : ℝ) + 0.5) z

/-- Embedding of MieDriver._compute_s_hn (source lines 172-192): the
outgoing spherical Hankel function spherical_jn(n, z) + i *
spherical_yn(n, z).  The scipy backends spherical_jn and spherical_yn
are the parameters sjn and syn; they accept complex arguments. -/
def compute_s_hn (sjn syn : ℕ → ℂ → ℂ) (n : ℕ) (z : ℂ) : ℂ :=
  sjn n z + Complex.I * syn n z

/-- Embedding of MieDriver._compute_z_jn_prime (source lines 195-214):
the Riccati-Bessel derivative term z * spherical_jn(n - 1, z) - n *
spherical_jn(n, z).  The code only ever calls it with orders n >= 1,
so the natural subtraction n - 1 agrees with the source. -/
def compute_z_jn_prime (sjn : ℕ → ℂ → ℂ) (n : ℕ) (z : ℂ) : ℂ :=
  z * sjn (n - 1) z - (n : ℂ) * sjn n z

/-- Embedding of MieDriver._compute_z_hn_prime (source lines 216-234):
z * h(n - 1, z) - n * h(n, z) with h = compute_s_hn. -/
def compute_z_hn_prime (sjn syn : ℕ → ℂ → ℂ) (n : ℕ) (z : ℂ) : ℂ :=
  z * compute_s_hn sjn syn (n - 1) z - (n : ℂ) * compute_s_hn sjn syn n z

/-- The truncation order computed inside MieDriver._compute_n_array
(source line 352): int(x + 4 * x ** (1 / 3) + 2).  Python float
exponentiation of a positive base is real rpow, and int() truncates
toward zero, which coincides with the floor for the positive values
this expression takes at every x the driver supplies (x > 0 gives a
value above 2). -/
def nMax (x : ℝ) : ℤ :=
  ⌊x + 4 * x ^ ((1 : ℝ) / 3) + 2⌋

/-- Embedding of MieDriver._compute_n_array (source lines 351-353):
np.linspace(1, n_max, n_max, dtype=int) is the integer sequence
1, 2, ..., n_max, modelled as List.range' 1 n_max. -/
def compute_n_array (x : ℝ) : List ℕ :=
  List.range' 1 (nMax x).toNat

/-- Numerator of the a coefficients (source line 274). -/
def aNumerator (sjn : ℕ → ℂ → ℂ) (m mu : ℂ) (x : ℝ) (n : ℕ) : ℂ :=
  m ^ 2 * sjn n (m * (x : ℂ)) * compute_z_jn_prime sjn n (x : ℂ)
    - mu * sjn n (x : ℂ) * compute_z_jn_prime sjn n (m * (x : ℂ))

/-- Denominator of the a coefficients (source line 275). -/
def aDenominator (sjn syn : ℕ → ℂ → ℂ) (m mu : ℂ) (x : ℝ) (n : ℕ) : ℂ :=
  m ^ 2 * sjn n (m * (x : ℂ)) * compute_z_hn_prime sjn syn n (x : ℂ)
    - mu * compute_s_hn sjn syn n (x : ℂ) * compute_z_jn_prime sjn n (m * (x : ℂ))

/-- Numerator of the b coefficients (source line 280). -/
def bNumerator (sjn : ℕ → ℂ → ℂ) (m mu : ℂ) (x : ℝ) (n : ℕ) : ℂ :=
  mu * sjn n (m * (x : ℂ)) * compute_z_jn_prime sjn n (x : ℂ)
    - sjn n (x : ℂ) * compute_z_jn_prime sjn n (m * (x : ℂ))

/-- Denominator of the b coefficients (source line 281). -/
def bDenominator (sjn syn : ℕ → ℂ → ℂ) (m mu : ℂ) (x : ℝ) (n : ℕ) : ℂ :=
  mu * sjn n (m * (x : ℂ)) * compute_z_hn_prime sjn syn n (x : ℂ)
    - compute_s_hn sjn syn n (x : ℂ) * compute_z_jn_prime sjn n (m * (x : ℂ))

/-- Numerator of the c coefficients (source line 286). -/
def cNumerator (sjn syn : ℕ → ℂ → ℂ) (_m mu : ℂ) (x : ℝ) (n : ℕ) : ℂ :=
  mu * sjn n (x : ℂ) * compute_z_hn_prime sjn syn n (x : ℂ)
    - mu * compute_s_hn sjn syn n (x : ℂ) * compute_z_jn_prime sjn n (x : ℂ)

/-- Denominator of the c coefficients (source line 287), written out in
the source identically to the b denominator. -/
def cDenominator (sjn syn : ℕ → ℂ → ℂ) (m mu : ℂ) (x : ℝ) (n : ℕ) : ℂ :=
  mu * sjn n (m * (x : ℂ)) * compute_z_hn_prime sjn syn n (x : ℂ)
    - compute_s_hn sjn syn n (x : ℂ) * compute_z_jn_prime sjn n (m * (x : ℂ))

/-- Numerator of the d coefficients (source line 292). -/
def dNumerator (sjn syn : ℕ → ℂ → ℂ) (m mu : ℂ) (x : ℝ) (n : ℕ) : ℂ :=
  mu * m * sjn n (x : ℂ) * compute_z_hn_prime sjn syn n (x : ℂ)
    - mu * m * compute_s_hn sjn syn n (x : ℂ) * compute_z_jn_prime sjn n (x : ℂ)

/-- Denominator of the d coefficients (source line 293), written out in
the source identically to the a denominator. -/
def dDenominator (sjn syn : ℕ → ℂ → ℂ) (m mu : ℂ) (x : ℝ) (n : ℕ) : ℂ :=
  m ^ 2 * sjn n (m * (x : ℂ)) * compute_z_hn_prime sjn syn n (x : ℂ)
    - mu * compute_s_hn sjn syn n (x : ℂ) * compute_z_jn_prime sjn n (m * (x : ℂ))

/-- Embedding of MieDriver._compute_mie_coeffients (source lines
236-296): builds the order array from x, then forms the four
coefficient arrays as elementwise quotients of the numerator and
denominator arrays.  The division is unconditional: the source
contains no epsilon test, no try/except and no raise. -/
def mieCoefficients (sjn syn : ℕ → ℂ → ℂ) (m mu : ℂ) (x : ℝ) :
    List ℂ × List ℂ × List ℂ × List ℂ :=
  ((compute_n_array x).map (fun n => aNumerator sjn m mu x n / aDenominator sjn syn m mu x n),
   (compute_n_array x).map (fun n => bNumerator sjn m mu x n / bDenominator sjn syn m mu x n),
   (compute_n_array x).map (fun n => cNumerator sjn syn m mu x n / cDenominator sjn syn m mu x n),
   (compute_n_array x).map (fun n => dNumerator sjn syn m mu x n / dDenominator sjn syn m mu x n))

/-- Embedding of MieDriver._compute_q_scattering (source lines
298-322): the body is the single statement returning the placeholder
string, for every input. -/
def compute_q_scattering (_m _mu : ℂ) (_x : ℝ) : String :=
  "replace_w_q_scat"

/-- Embedding of MieDriver._compute_q_extinction (source lines
324-349): the body is the single statement returning the placeholder
string, for every input. -/
def compute_q_extinction (_m _mu : ℂ) (_x : ℝ) : String :=
  "replace_with_q_ext"

/-- Modelled from the spec: the a coefficient formula of section 4.3,
with the six building blocks of section 4.1 written out through the
recurrences of section 4.1, to be compared with the source
computation. -/
def spec_a (sjn syn : ℕ → ℂ → ℂ) (m mu : ℂ) (x : ℝ) (n : ℕ) : ℂ :=
  (m ^ 2 * sjn n (m * (x : ℂ))
      * ((x : ℂ) * sjn (n - 1) (x : ℂ) - (n : ℂ) * sjn n (x : ℂ))
    - mu * sjn n (x : ℂ)
      * (m * (x : ℂ) * sjn (n - 1) (m * (x : ℂ)) - (n : ℂ) * sjn n (m * (x : ℂ))))
  / (m ^ 2 * sjn n (m * (x : ℂ))
      * ((x : ℂ) * (sjn (n - 1) (x : ℂ) + Complex.I * syn (n - 1) (x : ℂ))
         - (n : ℂ) * (sjn n (x : ℂ) + Complex.I * syn n (x : ℂ)))
    - mu * (sjn n (x : ℂ) + Complex.I * syn n (x : ℂ))
      * (m * (x : ℂ) * sjn (n - 1) (m * (x : ℂ)) - (n : ℂ) * sjn n (m * (x : ℂ))))

/-- Modelled from the spec: the b coefficient formula of section 4.3
with the building blocks written out. -/
def spec_b (sjn syn : ℕ → ℂ → ℂ) (m mu : ℂ) (x : ℝ) (n : ℕ) : ℂ :=
  (mu * sjn n (m * (x : ℂ))
      * ((x : ℂ) * sjn (n - 1) (x : ℂ) - (n : ℂ) * sjn n (x : ℂ))
    - sjn n (x : ℂ)
      * (m * (x : ℂ) * sjn (n - 1) (m * (x : ℂ)) - (n : ℂ) * sjn n (m * (x : ℂ))))
  / (mu * sjn n (m * (x : ℂ))
      * ((x : ℂ) * (sjn (n - 1) (x : ℂ) + Complex.I * syn (n - 1) (x : ℂ))
         - (n : ℂ) * (sjn n (x : ℂ) + Complex.I * syn n (x : ℂ)))
    - (sjn n (x : ℂ) + Complex.I * syn n (x : ℂ))
      * (m * (x : ℂ) * sjn (n - 1) (m * (x : ℂ)) - (n : ℂ) * sjn n (m * (x : ℂ))))

/-- Modelled from the spec: the c coefficient formula of section 4.3
with the building blocks written out. -/
def spec_c (sjn syn : ℕ → ℂ → ℂ) (m mu : ℂ) (x : ℝ) (n : ℕ) : ℂ :=
  (mu * sjn n (x : ℂ)
      * ((x : ℂ) * (sjn (n - 1) (x : ℂ) + Complex.I * syn (n - 1) (x : ℂ))
         - (n : ℂ) * (sjn n (x : ℂ) + Complex.I * syn n (x : ℂ)))
    - mu * (sjn n (x : ℂ) + Complex.I * syn n (x : ℂ))
      * ((x : ℂ) * sjn (n - 1) (x : ℂ) - (n : ℂ) * sjn n (x : ℂ)))
  / (mu * sjn n (m * (x : ℂ))
      * ((x : ℂ) * (sjn (n - 1) (x : ℂ) + Complex.I * syn (n - 1) (x : ℂ))
         - (n : ℂ) * (sjn n (x : ℂ) + Complex.I * syn n (x : ℂ)))
    - (sjn n (x : ℂ) + Complex.I * syn n (x : ℂ))
      * (m * (x : ℂ) * sjn (n - 1) (m * (x : ℂ)) - (n : ℂ) * sjn n (m * (x : ℂ))))

/-- Modelled from the spec: the d coefficient formula of section 4.3
with the building blocks written out. -/
def spec_d (sjn syn : ℕ → ℂ → ℂ) (m mu : ℂ) (x : ℝ) (n : ℕ) : ℂ :=
  (mu * m * sjn n (x : ℂ)
      * ((x : ℂ) * (sjn (n - 1) (x : ℂ) + Complex.I * syn (n - 1) (x : ℂ))
         - (n : ℂ) * (sjn n (x : ℂ) + Complex.I * syn n (x : ℂ)))
    - mu * m * (sjn n (x : ℂ) + Complex.I * syn n (x : ℂ))
      * ((x : ℂ) * sjn (n - 1) (x : ℂ) - (n : ℂ) * sjn n (x : ℂ)))
  / (m ^ 2 * sjn n (m * (x : ℂ))
      * ((x : ℂ) * (sjn (n - 1) (x : ℂ) + Complex.I * syn (n - 1) (x : ℂ))
         - (n : ℂ) * (sjn n (x : ℂ) + Complex.I * syn n (x : ℂ)))
    - mu * (sjn n (x : ℂ) + Complex.I * syn n (x : ℂ))
      * (m * (x : ℂ) * sjn (n - 1) (m * (x : ℂ)) - (n : ℂ) * sjn n (m * (x : ℂ))))

/-- Concrete spherical Bessel backend used to instantiate witnesses. -/
def sjnW : ℕ → ℂ → ℂ := fun n z => z + (n : ℂ) + 1

/-- Concrete spherical Neumann backend used to instantiate witnesses. -/
def synW : ℕ → ℂ → ℂ := fun n z => z * (n : ℂ) - 1

/-- Constant-one backend used in the degenerate-denominator instance. -/
def oneB : ℕ → ℂ → ℂ := fun _ _ => 1

/-- Concrete cylindrical Bessel backend used in the zero-argument
instance. -/
def jvW : ℝ → ℝ → ℝ := fun _ z => z + 1

/-- The truncation order at x = 1 evaluates to 7. -/
theorem nMax_one : nMax 1 = 7 := by
  unfold nMax
  rw [Real.one_rpow]
  norm_num

/-- The order array at x = 1 is the sequence 1..7. -/
theorem compute_n_array_one : compute_n_array 1 = [1, 2, 3, 4, 5, 6, 7] := by
  unfold compute_n_array
  rw [nMax_one]
  rfl

/-- C1: for every complex relative index m, complex permeability mu and
real size parameter x > 0, the Mie solver returns, order by order over
the order array, exactly the four coefficient formulas stated in the
spec, with the six building blocks expressed through the recurrences of
section 4.1 and complex arithmetic throughout. -/
theorem mie_coefficients_match_spec (sjn syn : ℕ → ℂ → ℂ) (m mu : ℂ) (x : ℝ)
    (_hx : 0 < x) :
    mieCoefficients sjn syn m mu x =
      ((compute_n_array x).map (spec_a sjn syn m mu x),
       (compute_n_array x).map (spec_b sjn syn m mu x),
       (compute_n_array x).map (spec_c sjn syn m mu x),
       (compute_n_array x).map (spec_d sjn syn m mu x)) :=
  rfl

/-- Witness for C1: the formula identity instantiated at a concrete
backend pair and at m = 2, mu = 3, x = 1. -/
theorem mie_coefficients_match_spec_check :
    (mieCoefficients sjnW synW 2 3 1).1 =
      (compute_n_array 1).map (spec_a sjnW synW 2 3 1) :=
  congrArg (fun p => p.1) (mie_coefficients_match_spec sjnW synW 2 3 1 one_pos)

/-- C2: contrary to the claim, the two efficiency methods do not return
the Mie efficiency sums at all; each returns a placeholder string, here
evaluated at the benchmark input m = 1.5, mu = 1, x = 1. -/
theorem q_efficiency_methods_return_placeholder_strings :
    compute_q_scattering (3 / 2) 1 1 = "replace_w_q_scat" ∧
    compute_q_extinction (3 / 2) 1 1 = "replace_with_q_ext" :=
  ⟨rfl, rfl⟩

/-- C3: contrary to the claim, compute_spectrum computes nothing: its
body is the single statement pass, so it produces no efficiency
sequences (and in particular no absorption efficiency) for any parsed
state. -/
theorem compute_spectrum_is_stub (s : ParsedState) : compute_spectrum s = none :=
  rfl

/-- C4 (amended): the solver applies no epsilon test and has no error
path; it always returns the elementwise quotient arrays, and at an
order whose a denominator vanishes the returned coefficient is the
junk value of totalized division (numpy would produce inf or nan),
never an error. -/
theorem mie_division_unguarded (sjn syn : ℕ → ℂ → ℂ) (m mu : ℂ) (x : ℝ) (n : ℕ)
    (hden : aDenominator sjn syn m mu x n = 0) :
    (mieCoefficients sjn syn m mu x).1 =
      (compute_n_array x).map
        (fun k => aNumerator sjn m mu x k / aDenominator sjn syn m mu x k) ∧
    aNumerator sjn m mu x n / aDenominator sjn syn m mu x n = 0 :=
  ⟨rfl, by rw [hden, div_zero]⟩

/-- Witness for C4: at m = 0, mu = 0, x = 1 with the constant-one
backend the a denominator of order 1 is exactly zero, and the computed
coefficient is the junk value 0, not an error. -/
theorem mie_division_unguarded_check :
    aNumerator oneB 0 0 1 1 / aDenominator oneB oneB 0 0 1 1 = 0 :=
  (mie_division_unguarded oneB oneB 0 0 1 1 (by norm_num [aDenominator])).2

/-- Counterexample for C4: at the concrete degenerate input m = 0,
mu = 0, x = 1 every a denominator is exactly zero, yet the solver
returns a full coefficient array (all junk zeros under totalized
division) instead of raising any error. -/
theorem mie_zero_denominator_returns_values :
    aDenominator oneB oneB 0 0 1 1 = 0 ∧
    (mieCoefficients oneB oneB 0 0 1).1 = List.replicate 7 0 := by
  constructor
  · norm_num [aDenominator]
  · show (compute_n_array 1).map _ = _
    rw [compute_n_array_one]
    norm_num [aNumerator]
    rfl

/-- C5: for every x > 0 the order array is the strictly increasing
sequence 1..N_max with N_max = floor(x + 4 x^(1/3) + 2), and N_max is
at least 1 (indeed at least 2) however small x is. -/
theorem n_array_is_one_to_nmax (x : ℝ) (hx : 0 < x) :
    nMax x = ⌊x + 4 * x ^ ((1 : ℝ) / 3) + 2⌋ ∧
    1 ≤ nMax x ∧
    List.Pairwise (· < ·) (compute_n_array x) ∧
    ∀ k : ℕ, k ∈ compute_n_array x ↔ 1 ≤ k ∧ (k : ℤ) ≤ nMax x := by
  have hpos : 0 < x ^ ((1 : ℝ) / 3) := Real.rpow_pos_of_pos hx _
  have h2 : (2 : ℤ) ≤ nMax x := by
    rw [nMax, Int.le_floor]
    push_cast
    nlinarith
  refine ⟨rfl, by omega, ?_, fun k => ?_⟩
  · rw [compute_n_array]
    exact List.pairwise_lt_range' 1 _
  · rw [compute_n_array, List.mem_range'_1]
    omega

/-- Witness for C5: the truncation order at x = 1 is at least 1. -/
theorem n_array_is_one_to_nmax_check : 1 ≤ nMax 1 :=
  (n_array_is_one_to_nmax 1 one_pos).2.1

/-- C6: the truncation order is monotonically non-decreasing on the
positive reals, and at x = 1 it is an integer that is at least 4 and
strictly below 10 (it equals 7). -/
theorem nmax_monotone_and_order_one_bounds :
    (∀ x y : ℝ, 0 < x → x ≤ y → nMax x ≤ nMax y) ∧
    4 ≤ nMax 1 ∧ nMax 1 < 10 := by
  refine ⟨fun x y hx hxy => ?_, by rw [nMax_one]; norm_num, by rw [nMax_one]; norm_num⟩
  unfold nMax
  apply Int.floor_le_floor
  have hcube : x ^ ((1 : ℝ) / 3) ≤ y ^ ((1 : ℝ) / 3) :=
    Real.rpow_le_rpow (le_of_lt hx) hxy (by norm_num)
  linarith

/-- Witness for C6: monotonicity applied at the concrete pair 1 <= 2. -/
theorem nmax_monotone_and_order_one_bounds_check : nMax 1 ≤ nMax 2 :=
  nmax_monotone_and_order_one_bounds.1 1 2 one_pos one_le_two

/-- C7 (amended): compute_s_jn has no zero-argument guard and raises no
error of any kind: at z = 0 the prefactor divides by zero and the call
silently returns a junk value for every order and every backend (zero
under the totalized arithmetic of the model; numpy produces inf times
jv(n + 0.5, 0), that is nan, with only a runtime warning). -/
theorem s_jn_zero_argument_returns_silently (jvB : ℝ → ℝ → ℝ) (n : ℕ) :
    compute_s_jn jvB n 0 = 0 := by
  unfold compute_s_jn
  norm_num

/-- Counterexample for C7: at the concrete input n = 1, z = 0 with a
concrete backend, the evaluation returns the finite value 0 silently
instead of failing with a DomainError (no such error exists in the
code). -/
theorem s_jn_at_zero_evaluates_silently : compute_s_jn jvW 1 0 = 0 := by
  unfold compute_s_jn jvW
  norm_num

/-- C8: for every args dictionary the parsed state carries, per
wavelength, the size parameter 2 pi radius / lambda, the relative
refractive index sphere_index / medium_index, and the relative
permeability 1. -/
theorem parse_input_derives_x_m_mu (args : Args) :
    (parse_input args).size_factor_array =
      (parse_input args).wavelength_array.map
        (fun lam => 2 * Real.pi * (parse_input args).radius / lam) ∧
    (parse_input args).relative_refractive_index_array =
      (parse_input args).sphere_refractive_index_array.map
        (fun s => s / (parse_input args).medium_refractive_index) ∧
    (parse_input args).relative_permeability = 1 := by
  refine ⟨?_, rfl, rfl⟩
  show (parse_input args).wavelength_array.map
      (fun lam => Real.pi * 2 * (parse_input args).radius / lam) = _
  congr 1
  funext lam
  ring

/-- C9 (amended): input parsing recognizes the option key
wavelength_list, not wavelength_range, building the grid as
linspace(start, stop, count); with the option absent the grid defaults
to linspace(400e-9, 800e-9, 10), and radius is recognized with default
100e-9. -/
theorem parse_input_recognized_options (a b : ℝ) (n : ℕ) (r : ℝ) :
    (parse_input [("wavelength_list", ArgVal.triple a b n)]).wavelength_array
        = linspace a b n ∧
    (parse_input [("wavelength_list", ArgVal.triple a b n)]).number_of_wavelengths = n ∧
    (parse_input []).wavelength_array = linspace 400e-9 800e-9 10 ∧
    (parse_input []).number_of_wavelengths = 10 ∧
    (parse_input []).radius = 100e-9 ∧
    (parse_input [("radius", ArgVal.num r)]).radius = r :=
  ⟨rfl, rfl, rfl, rfl, rfl, rfl⟩

/-- Counterexample for C9: an args dictionary carrying the key
wavelength_range with the triple (1, 2, 5) is ignored: the parsed grid
is the 10-point default, not a 5-point grid built from the option. -/
theorem wavelength_range_key_is_ignored :
    (parse_input [("wavelength_range", ArgVal.triple 1 2 5)]).wavelength_array
        = linspace 400e-9 800e-9 10 ∧
    (parse_input [("wavelength_range", ArgVal.triple 1 2 5)]).wavelength_array.length
        = 10 := by
  constructor
  · rfl
  · rfl

/-- C10: for an index-matched sphere, m = 1 and mu = 1, the a and b
numerators vanish identically for every order and every backend, so
the returned a and b coefficient arrays are identically zero. -/
theorem index_matched_sphere_zero_coefficients (sjn syn : ℕ → ℂ → ℂ) (x : ℝ)
    (_hx : 0 < x) :
    (∀ n, aNumerator sjn 1 1 x n = 0) ∧
    (∀ n, bNumerator sjn 1 1 x n = 0) ∧
    (mieCoefficients sjn syn 1 1 x).1 = List.replicate (compute_n_array x).length 0 ∧
    (mieCoefficients sjn syn 1 1 x).2.1 = List.replicate (compute_n_array x).length 0 := by
  have ha : ∀ n, aNumerator sjn 1 1 x n = 0 := by
    intro n
    simp only [aNumerator, compute_z_jn_prime, one_pow, one_mul]
    ring
  have hb : ∀ n, bNumerator sjn 1 1 x n = 0 := by
    intro n
    simp only [bNumerator, compute_z_jn_prime, one_mul]
    ring
  have hmap : ∀ (f : ℕ → ℂ), (∀ n, f n = 0) →
      (compute_n_array x).map f = List.replicate (compute_n_array x).length 0 := by
    intro f hf
    have : (compute_n_array x).map f = (compute_n_array x).map (fun _ => (0 : ℂ)) := by
      congr 1
      funext n
      exact hf n
    rw [this, List.map_const']
  refine ⟨ha, hb, ?_, ?_⟩
  · show (compute_n_array x).map _ = _
    refine hmap _ fun n => ?_
    rw [ha n, zero_div]
  · show (compute_n_array x).map _ = _
    refine hmap _ fun n => ?_
    rw [hb n, zero_div]

/-- Witness for C10: the vanishing a numerator at the concrete backend,
x = 1 and order 5. -/
theorem index_matched_sphere_zero_coefficients_check :
    aNumerator sjnW 1 1 1 5 = 0 :=
  (index_matched_sphere_zero_coefficients sjnW synW 1 one_pos).1 5

end WPthermal
